import Mathlib

/-!
Shallow embedding of the TOSCAKubed Kubernetes adaptor
(`toscakubed.py`): translation of a parsed TOSCA topology into
Kubernetes manifests.  Python dictionaries are modelled as ordered
association lists over a universal value type `Val`; Python exceptions
are modelled with `Except String`; logging is out of scope (the spec
treats it as plumbing), so warning-only branches keep only their value
effect.
-/

namespace TKube

/-- Universal type for Python values as they occur in the adaptor:
None, bools, ints, strings, lists, and string-keyed dicts. -/
inductive Val where
  | vnone : Val
  | vbool : Bool → Val
  | vint : Int → Val
  | vstr : String → Val
  | vlist : List Val → Val
  | vdict : List (String × Val) → Val
deriving Repr

/-- Ordered association list standing for a Python dict. -/
abbrev Dict := List (String × Val)

/-- Python truthiness of a value. -/
def truthy : Val → Bool
  | .vnone => false
  | .vbool b => b
  | .vint n => n != 0
  | .vstr s => s != ""
  | .vlist xs => !xs.isEmpty
  | .vdict d => !d.isEmpty

/-- Python equality of a value against a string literal (`v == "s"`):
true only when the value is that very string. -/
def valEqStr (v : Val) (s : String) : Bool :=
  match v with
  | .vstr t => t == s
  | _ => false

/-- Python `a or b`. -/
def pyOr (a b : Val) : Val := if truthy a then a else b

/-- First value bound to a key (Python `d[k]` / `d.get(k)` hit). -/
def dget : Dict → String → Option Val
  | [], _ => none
  | (k', v) :: d, k => if k' == k then some v else dget d k

/-- Python `d.get(k, default)`. -/
def dgetD (d : Dict) (k : String) (v : Val) : Val := (dget d k).getD v

/-- Key-membership test. -/
def dhas (d : Dict) (k : String) : Bool := (dget d k).isSome

/-- Python `d[k] = v`: replace in place, else append. -/
def dset : Dict → String → Val → Dict
  | [], k, v => [(k, v)]
  | (k', v') :: d, k, v =>
    if k' == k then (k, v) :: d else (k', v') :: dset d k v

/-- Removal of a key (used for Python `d.pop(k)`). -/
def dremove (d : Dict) (k : String) : Dict :=
  d.filter (fun kv => kv.1 != k)

/-- Python `d.pop(k, default)` without the default applied:
the looked-up value together with the dict with the key removed. -/
def dpop (d : Dict) (k : String) : Option Val × Dict :=
  (dget d k, dremove d k)

/-- Python `d.setdefault(k, v)`, returning the updated dict. -/
def dsetdefault (d : Dict) (k : String) (v : Val) : Dict :=
  if dhas d k then d else d ++ [(k, v)]

/-- Python `d.setdefault(k, v)` returning both the resulting binding
and the updated dict. -/
def dsetdefaultGet (d : Dict) (k : String) (v : Val) : Val × Dict :=
  match dget d k with
  | some w => (w, d)
  | none => (v, d ++ [(k, v)])

/-- Python `d.update(e)`: existing keys overwritten in place, new keys
appended in the order of `e`. -/
def dupdate (d e : Dict) : Dict :=
  e.foldl (fun acc kv => dset acc kv.1 kv.2) d

/-- The comprehension `{k: v for k, v in d.items() if v}` used to prune
falsy entries before emission. -/
def dfilterTruthy (d : Dict) : Dict :=
  d.filter (fun kv => truthy kv.2)

/-- Python `e = d.get(k)` followed by attribute access that requires a
dict (`.get` / `.setdefault` on the result). -/
def asDict : Val → Except String Dict
  | .vdict d => .ok d
  | _ => .error "AttributeError: value is not a dict"

/-- Lower-casing of an ASCII character (Python `str.lower` on the
alphabet this adaptor compares). -/
def charLower (c : Char) : Char :=
  if 'A' ≤ c && c ≤ 'Z' then Char.ofNat (c.toNat + 32) else c

/-- Upper-casing of an ASCII character. -/
def charUpper (c : Char) : Char :=
  if 'a' ≤ c && c ≤ 'z' then Char.ofNat (c.toNat - 32) else c

/-- Python `s.lower()`. -/
def lowerStr (s : String) : String := String.mk (s.data.map charLower)

/-- Python `s.upper()`. -/
def upperStr (s : String) : String := String.mk (s.data.map charUpper)

/-- Python `c in s` for a single character. -/
def strHasChar (s : String) (c : Char) : Bool := s.data.contains c

/-- Whether the first list is a leading segment of the second. -/
def leadEq : List Char → List Char → Bool
  | [], _ => true
  | _ :: _, [] => false
  | a :: as, b :: bs => a == b && leadEq as bs

/-- Whether `sub` occurs inside `s` as a contiguous segment. -/
def infxChars (sub : List Char) : List Char → Bool
  | [] => sub.isEmpty
  | c :: rest => leadEq sub (c :: rest) || infxChars sub rest

/-- Python substring containment `sub in s`. -/
def strIn (sub s : String) : Bool := infxChars sub.data s.data

/-- Helper of `pySplitWsStr`: whitespace-run split with accumulator. -/
def splitWsChars : List Char → List Char → List String
  | [], acc => if acc.isEmpty then [] else [String.mk acc.reverse]
  | c :: cs, acc =>
    if c.isWhitespace then
      if acc.isEmpty then splitWsChars cs []
      else String.mk acc.reverse :: splitWsChars cs []
    else splitWsChars cs (c :: acc)

/-- Python `s.split()` (split on whitespace runs, no empty tokens). -/
def pySplitWsStr (s : String) : List String := splitWsChars s.data []

/-- Python `v.split()` where `v` must be a string. -/
def pySplitWs : Val → Except String (List String)
  | .vstr s => .ok (pySplitWsStr s)
  | _ => .error "AttributeError: split"

/-- Helper of `splitDot`: split at every dot, keeping empty pieces. -/
def splitDotChars : List Char → List Char → List String
  | [], acc => [String.mk acc.reverse]
  | c :: cs, acc =>
    if c == '.' then String.mk acc.reverse :: splitDotChars cs []
    else splitDotChars cs (c :: acc)

/-- Python `s.split(".")`. -/
def splitDot (s : String) : List String := splitDotChars s.data []

/-- Python `s.isdigit()` for ASCII digits. -/
def isDigits (s : String) : Bool :=
  !s.data.isEmpty && s.data.all Char.isDigit

/-- Numeric value of a digit string. -/
def digitsVal (cs : List Char) : Nat :=
  cs.foldl (fun acc c => acc * 10 + (c.toNat - '0'.toNat)) 0

/-- Parse of an integer literal the way Python `int(str)` accepts it:
optional surrounding whitespace, optional sign, digits. -/
def parseIntChars (cs : List Char) : Option Int :=
  let cs := (cs.dropWhile Char.isWhitespace).reverse
  let cs := (cs.dropWhile Char.isWhitespace).reverse
  match cs with
  | '-' :: rest =>
    if !rest.isEmpty && rest.all Char.isDigit then
      some (-(digitsVal rest : Int))
    else none
  | '+' :: rest =>
    if !rest.isEmpty && rest.all Char.isDigit then
      some ((digitsVal rest : Int))
    else none
  | rest =>
    if !rest.isEmpty && rest.all Char.isDigit then
      some ((digitsVal rest : Int))
    else none

/-- Python `int(v)`: ints pass through, bools coerce, numeric strings
parse, everything else (None included) raises. -/
def pyInt : Val → Except String Int
  | .vint n => .ok n
  | .vbool b => .ok (if b then 1 else 0)
  | .vstr s =>
    match parseIntChars s.data with
    | some n => .ok n
    | none => .error "ValueError: invalid literal for int"
  | .vnone => .error "TypeError: int argument must not be None"
  | _ => .error "TypeError: int argument"

/-- String-attribute access (`.lower()`, `.upper()`, `.split(...)`)
on a value that must be a string. -/
def pyStrOnly : Val → Except String String
  | .vstr s => .ok s
  | _ => .error "AttributeError: value is not a string"

/-- Python `v.lower()`. -/
def pyLower (v : Val) : Except String String := do
  let s ← pyStrOnly v
  pure (lowerStr s)

/-- Python `v.upper()`. -/
def pyUpper (v : Val) : Except String String := do
  let s ← pyStrOnly v
  pure (upperStr s)

/-- Python `str(v)` as used by `"{}-{}".format(...)`; containers are
never formatted on the paths this adaptor exercises, so they render as
placeholders. -/
def pyStrOf : Val → String
  | .vnone => "None"
  | .vbool b => if b then "True" else "False"
  | .vint n => toString n
  | .vstr s => s
  | .vlist _ => "[list]"
  | .vdict _ => "[dict]"

/-- Python `s.strip("/")`. -/
def stripSlashes (s : String) : String :=
  String.mk (((s.data.dropWhile (· == '/')).reverse.dropWhile (· == '/')).reverse)

/-- Lexicographic character-list comparison (Python string `<=`). -/
def charListLe : List Char → List Char → Bool
  | [], _ => true
  | _ :: _, [] => false
  | a :: as, b :: bs => if a == b then charListLe as bs else decide (a < b)

/-- Python string comparison `a <= b` by code points. -/
def strLe (a b : String) : Bool := charListLe a.data b.data

/-- `TOSCA_TYPES`: the Docker container node type. -/
def DOCKER_CONTAINER : String := "tosca.nodes.MiCADO.Container.Application.Docker"

/-- `TOSCA_TYPES`: the container volume node type. -/
def CONTAINER_VOLUME : String := "tosca.nodes.MiCADO.Container.Volume"

/-- `TOSCA_TYPES`: the attachment relationship type. -/
def VOLUME_ATTACHMENT : String := "tosca.relationships.AttachesTo"

/-- `TOSCA_TYPES`: the orchestrator interface namespace. -/
def KUBERNETES_INTERFACE : String := "Kubernetes"

/-- The five supported workload kinds. -/
def SUPPORTED_WORKLOADS : List String :=
  ["Pod", "Job", "Deployment", "StatefulSet", "DaemonSet"]

/-- Known swarm-only container properties, stripped with a warning. -/
def SWARM_PROPERTIES : List String := ["expose"]

/-- The allow-list of pod-spec field names lifted out of the
create-operation inputs. -/
def POD_SPEC_FIELDS : List String :=
  ["activeDeadlineSeconds", "affinity", "automountServiceAccountToken",
   "dnsConfig", "dnsPolicy", "enableServiceLinks", "hostAliases",
   "hostIPC", "hostNetwork", "hostPID", "hostname", "imagePullSecrets",
   "initContainers", "nodeName", "nodeSelector", "priority",
   "priorityClassName", "readinessGates", "restartPolicy",
   "runtimeClassName", "schedulerName", "securityContext",
   "serviceAccount", "serviceAccountName", "shareProcessNamespace",
   "subdomain", "terminationGracePeriodSeconds", "tolerations",
   "volumes"]

/-- A repository entry of the parsed template (name and location). -/
structure Repository where
  name : String
  reposit : String

/-- One declared interface operation of a node: the interface type it
belongs to, the operation name, and its input mapping (Python `None`
inputs arrive as the empty mapping, matching `operation.inputs or {}`). -/
structure Operation where
  itype : String
  opName : String
  inputs : Dict

/-- A parsed topology node as the adaptor consumes it. -/
structure Node where
  name : String
  ntype : String
  properties : Dict
  interfaces : List Operation
  requirements : List Val
  relatedNames : List String
  entityTpl : Dict

/-- `_get_api`: the fixed kind-to-apiVersion table, matched
case-insensitively; unknown kinds yield the literal string
`"unknown"` (with a warning in the source). -/
def getApi (kind : String) : String :=
  let apiVersions : List (String × String) :=
    [("DaemonSet", "apps/v1"), ("Deployment", "apps/v1"),
     ("Job", "batch/v1"), ("Pod", "v1"), ("ReplicaSet", "apps/v1"),
     ("StatefulSet", "apps/v1"), ("Ingress", "extensions/v1beta1"),
     ("Service", "v1"), ("PersistentVolume", "v1"),
     ("PersistentVolumeClaim", "v1"), ("Volume", "v1"),
     ("Namespace", "v1")]
  match apiVersions.find? (fun p => lowerStr kind == lowerStr p.1) with
  | some p => p.2
  | none => "unknown"

/-- `KubernetesAdaptor._get_resource`: base resource data (apiVersion,
kind, metadata).  The inputs dict is mutated by the pops, so the
updated inputs are returned alongside the resource. -/
def getResource (shortId : String) (name : Val) (inputs : Dict)
    (kind : String) : Except String (Dict × Dict) := do
  let (kOpt, inputs) := dpop inputs "kind"
  let kindVal := kOpt.getD (.vstr kind)
  let kindStr ← pyStrOnly kindVal
  let defaultApi := getApi kindStr
  let (apiOpt, inputs) := dpop inputs "apiVersion"
  let apiVersion := apiOpt.getD (.vstr defaultApi)
  let (mdOpt, inputs) := dpop inputs "metadata"
  let metadata ← asDict (mdOpt.getD (.vdict []))
  let (nameOpt, inputs) := dpop inputs "name"
  let metadata := dsetdefault metadata "name" (nameOpt.getD name)
  let (labelsOpt, inputs) := dpop inputs "labels"
  let metadata := dsetdefault metadata "labels" (labelsOpt.getD (.vdict []))
  let labelsD ← asDict (dgetD metadata "labels" (.vdict []))
  let metadata := dset metadata "labels" (.vdict (dsetdefault labelsD "app" (.vstr shortId)))
  pure ([("apiVersion", apiVersion), ("kind", Val.vstr kindStr),
         ("metadata", Val.vdict metadata)], inputs)

/-- `_get_image`: full path to the container image from the node
template artifacts and the repository list; an unresolvable image
yields the empty string. -/
def getImage (entityTpl : Dict) (repositories : List Repository) :
    Except String Val := do
  let artifacts ← asDict (dgetD entityTpl "artifacts" (.vdict []))
  let details ← asDict (dgetD artifacts "image" (.vdict []))
  let imageV := dgetD details "file" .vnone
  let repoV := dgetD details "repository" .vnone
  if !truthy imageV || !truthy repoV || repositories.isEmpty then
    return .vstr ""
  let repo ← pyStrOnly repoV
  let norm := String.mk ((lowerStr repo).data.filter
    (fun c => c != ' ' && c != '-' && c != '_'))
  if norm != "dockerhub" then
    match (repositories.filter (fun r => r.name == repo)).map (·.reposit) with
    | [] => pure imageV
    | p :: _ => do
      let i ← pyStrOnly imageV
      pure (.vstr (stripSlashes p ++ "/" ++ i))
  else
    pure imageV

/-- Python tuple unpacking `key, value = item` into exactly two
targets; a string unpacks into its characters. -/
def unpack2 : Val → Except String (Val × Val)
  | .vstr s =>
    match s.data with
    | [a, b] => .ok (.vstr (String.mk [a]), .vstr (String.mk [b]))
    | _ => .error "ValueError: unpack"
  | .vlist [a, b] => .ok (a, b)
  | .vlist _ => .error "ValueError: unpack"
  | _ => .error "TypeError: cannot unpack non-iterable"

/-- The environment conversion loop of `_get_container`:
`for key, value in docker_env: env.append(...)`.  Iterating a dict
yields its keys, each of which is then tuple-unpacked. -/
def pyEnvConvert : Val → Except String (List Val)
  | .vdict d =>
    d.foldlM (fun acc kv => do
      let (k, v) ← unpack2 (Val.vstr kv.1)
      pure (acc ++ [Val.vdict [("name", k), ("value", v)]])) []
  | .vlist xs =>
    xs.foldlM (fun acc x => do
      let (k, v) ← unpack2 x
      pure (acc ++ [Val.vdict [("name", k), ("value", v)]])) []
  | .vstr s =>
    s.data.foldlM (fun acc c => do
      let (k, v) ← unpack2 (Val.vstr (String.mk [c]))
      pure (acc ++ [Val.vdict [("name", k), ("value", v)]])) []
  | _ => .error "TypeError: cannot unpack non-iterable"

/-- `_get_container`: the container spec from one node's properties.
The properties and configure-operation inputs dicts are mutated, so
the result is the filtered container spec together with the mutated
properties and inputs. -/
def getContainer (node : Node) (properties : Dict)
    (repositories : List Repository) (inputs : Dict) :
    Except String (Dict × Dict × Dict) := do
  let image ← getImage node.entityTpl repositories
  if !truthy image then
    throw ("No image specified for " ++ node.name ++ "!")
  let properties := dsetdefault properties "image" image
  let (_, properties) := dpop properties "expose"
  let (cnOpt, properties) := dpop properties "container_name"
  let properties := dsetdefault properties "name" (cnOpt.getD (.vstr node.name))
  let (epOpt, properties) := dpop properties "entrypoint"
  let cmdToks ← pySplitWs (epOpt.getD (.vstr ""))
  let properties := dsetdefault properties "command" (.vlist (cmdToks.map .vstr))
  let (cmdOpt, properties) := dpop properties "cmd"
  let argToks ← pySplitWs (cmdOpt.getD (.vstr ""))
  let properties := dsetdefault properties "args" (.vlist (argToks.map .vstr))
  let (envOpt, properties) := dpop properties "environment"
  let env ← pyEnvConvert (envOpt.getD (.vdict []))
  let properties := dsetdefault properties "env" (.vlist env)
  let (lblOpt, properties) := dpop properties "labels"
  let dockerLabels := lblOpt.getD .vnone
  let inputs ← if truthy dockerLabels then do
      let lblD ← asDict dockerLabels
      let (mdVal, inputs) := dsetdefaultGet inputs "metadata" (.vdict [])
      let mdD ← asDict mdVal
      let (lVal, mdD) := dsetdefaultGet mdD "labels" (.vdict [])
      let lD ← asDict lVal
      let mdD := dset mdD "labels" (.vdict (dupdate lD lblD))
      pure (dset inputs "metadata" (.vdict mdD))
    else pure inputs
  let (graceOpt, properties) := dpop properties "stop_grace_period"
  let dockerGrace := graceOpt.getD .vnone
  let inputs := if truthy dockerGrace then
      dsetdefault inputs "terminationGracePeriodSeconds" dockerGrace
    else inputs
  let (privOpt, properties) := dpop properties "privileged"
  let dockerPriv := privOpt.getD .vnone
  let properties ← if truthy dockerPriv then do
      let (scVal, properties) := dsetdefaultGet properties "securityContext" (.vdict [])
      let scD ← asDict scVal
      pure (dset properties "securityContext" (.vdict (dsetdefault scD "privileged" dockerPriv)))
    else pure properties
  let (pidOpt, properties) := dpop properties "pid"
  let inputs := if valEqStr (pidOpt.getD .vnone) "host" then
      dsetdefault inputs "hostPID" (.vbool true)
    else inputs
  let (nmOpt, properties) := dpop properties "network_mode"
  let inputs := if valEqStr (nmOpt.getD .vnone) "host" then
      dsetdefault inputs "hostNetwork" (.vbool true)
    else inputs
  let (siOpt, properties) := dpop properties "stdin_open"
  let properties := dsetdefault properties "stdin" (siOpt.getD .vnone)
  let (hcOpt, properties) := dpop properties "healthcheck"
  let properties := dsetdefault properties "livenessProbe" (hcOpt.getD .vnone)
  pure (dfilterTruthy properties, properties, inputs)

/-- `_separate_data`: pop every listed key that is present, returning
the separated data and the remaining dict. -/
def separateData (keyNames : List String) (container : Dict) : Dict × Dict :=
  keyNames.foldl (fun acc k =>
    match dget acc.2 k with
    | some v => (acc.1 ++ [(k, v)], dremove acc.2 k)
    | none => acc) ([], container)

/-- `_build_port_spec`: one raw port entry resolved into a port spec;
`none` models the Python `return None` drop path. -/
def buildPortSpec (port : Dict) (nodeName : String) :
    Except String (Option Dict) := do
  let target := dgetD port "targetPort" (dgetD port "target" .vnone)
  let publish ← pyInt (dgetD port "port" (dgetD port "published" target))
  if publish == 0 && !truthy target then
    return none
  let target := match target with
    | .vstr s => if isDigits s then Val.vint (digitsVal s.data) else Val.vstr s
    | v => v
  let clusterIpRaw := dgetD port "clusterIP" .vnone
  let clusterIp ← if truthy clusterIpRaw then do
      let s ← pyStrOnly clusterIpRaw
      match splitDot s with
      | [] => pure clusterIpRaw
      | first :: rest => do
        let inRange ← if first == "10" then
            match rest with
            | [] => Except.error "IndexError: list index out of range"
            | second :: _ => do
              let v ← pyInt (.vstr second)
              pure (96 ≤ v && v ≤ 111)
          else pure false
        if inRange then pure clusterIpRaw
        else if first == "None" then pure (Val.vstr "None")
        else pure clusterIpRaw
    else pure clusterIpRaw
  let protocol ← pyUpper (dgetD port "protocol" (.vstr "TCP"))
  let name := dgetD port "name"
    (.vstr (pyStrOf target ++ "-" ++ lowerStr protocol))
  let portType0 := dgetD port "type" (dgetD port "mode" .vnone)
  let metadata := dgetD port "metadata" .vnone
  let nodePortRaw := dgetD port "nodePort" .vnone
  let (portType, nodePort) ← if truthy nodePortRaw then do
      let pt := pyOr portType0 (.vstr "NodePort")
      let v ← pyInt nodePortRaw
      if 30000 > v && v > 32767 then
        pure (pt, Val.vnone)
      else
        pure (pt, nodePortRaw)
    else pure (portType0, nodePortRaw)
  let portType := if valEqStr portType "host" then Val.vstr "NodePort"
    else if valEqStr portType "ingress" || !truthy portType then Val.vstr "ClusterIP"
    else portType
  let spec : Dict :=
    [("name", name), ("targetPort", target), ("port", Val.vint publish),
     ("protocol", Val.vstr protocol), ("type", portType),
     ("nodePort", nodePort), ("metadata", metadata),
     ("clusterIP", clusterIp)]
  return some (dfilterTruthy spec)

/-- Python `d.setdefault(k, []).append(v)`. -/
def dappendList (d : Dict) (k : String) (v : Val) : Except String Dict := do
  let (cur, d) := dsetdefaultGet d k (.vlist [])
  match cur with
  | .vlist xs => pure (dset d k (.vlist (xs ++ [v])))
  | _ => .error "AttributeError: append"

/-- Python `d.setdefault(k, []) += vs`. -/
def dextendList (d : Dict) (k : String) (vs : List Val) : Except String Dict := do
  let (cur, d) := dsetdefaultGet d k (.vlist [])
  match cur with
  | .vlist xs => pure (dset d k (.vlist (xs ++ vs)))
  | _ => .error "TypeError: cannot extend non-list"

/-- `_get_service_info`: ports extracted from the container spec
(container-style ports re-attached), producing the port spec list and
the mutated container. -/
def getServiceInfo (container : Dict) (nodeName : String) :
    Except String (List Dict × Dict) := do
  let (portsOpt, container) := dpop container "ports"
  let portsVal := portsOpt.getD .vnone
  if truthy portsVal then do
    let ports ← match portsVal with
      | .vlist xs => pure xs
      | _ => Except.error "TypeError: not iterable"
    ports.foldlM (fun (acc : List Dict × Dict) p => do
      let (plist, cont) := acc
      let pd ← asDict p
      if truthy (dgetD pd "containerPort" .vnone) then do
        let cont ← dappendList cont "ports" p
        pure (plist, cont)
      else do
        match ← buildPortSpec pd nodeName with
        | some spec =>
          if truthy (.vdict spec) then pure (plist ++ [spec], cont)
          else pure (plist, cont)
        | none => pure (plist, cont)) ([], container)
  else
    pure ([], container)

/-- Python equality between two values used as dict keys; container
values are unhashable and never reach this comparison. -/
def valKeyEq : Val → Val → Bool
  | .vnone, .vnone => true
  | .vbool a, .vbool b => a == b
  | .vint a, .vint b => a == b
  | .vstr a, .vstr b => a == b
  | _, _ => false

/-- Whether a value may serve as a Python dict key. -/
def vkeyHashable : Val → Bool
  | .vlist _ => false
  | .vdict _ => false
  | _ => true

/-- The `services_to_build` table: service name (a Python value) to
service entry. -/
abbrev VTable := List (Val × Dict)

/-- Lookup in a value-keyed table. -/
def vkeyGet (t : VTable) (k : Val) : Option Dict :=
  (t.find? (fun p => valKeyEq p.1 k)).map (·.2)

/-- Assignment in a value-keyed table: replace in place, else append. -/
def vkeySet : VTable → Val → Dict → VTable
  | [], k, v => [(k, v)]
  | (k', v') :: t, k, v =>
    if valKeyEq k' k then (k, v) :: t else (k', v') :: vkeySet t k v

/-- Removal from a value-keyed table. -/
def vkeyRemove (t : VTable) (k : Val) : VTable :=
  t.filter (fun p => !valKeyEq p.1 k)

/-- `t.setdefault(k, default)` on a value-keyed table. -/
def vkeySetdefaultGet (t : VTable) (k : Val) (dflt : Dict) : Dict × VTable :=
  match vkeyGet t k with
  | some v => (v, t)
  | none => (dflt, t ++ [(k, dflt)])

/-- `_build_service`: a Service manifest and its reporting entry from
one grouped service entry; `none` models the port-less drop path. -/
def buildService (serviceName : Val) (service : Dict) (resource : Dict)
    (nodeName : String) (inputs : Dict) :
    Except String (Option (Dict × Dict)) := do
  let ports := dgetD service "ports" .vnone
  if !truthy ports then
    return none
  let resMd ← asDict (dgetD resource "metadata" (.vdict []))
  let resourceNamespace := dgetD resMd "namespace" .vnone
  let resourceLabels := dgetD resMd "labels" .vnone
  let inMd ← asDict (dgetD inputs "metadata" (.vdict []))
  let podLabels := dgetD inMd "labels" (.vdict [("run", .vstr nodeName)])
  let svcMd ← asDict (dgetD service "metadata" (.vdict []))
  let svcMd := dsetdefault svcMd "name" serviceName
  let svcMd := dsetdefault svcMd "namespace" resourceNamespace
  let svcMd := dsetdefault svcMd "labels" resourceLabels
  let namespaceV := pyOr (dgetD svcMd "namespace" .vnone) (.vstr "default")
  let serviceInfo : Dict :=
    [("node", .vstr nodeName), ("name", serviceName), ("namespace", namespaceV)]
  let svcMd := dfilterTruthy svcMd
  let portType := dgetD service "type" .vnone
  let clusterIp := dgetD service "clusterIP" .vnone
  let specPortsVal ← match ports with
    | .vlist xs => pure (Val.vlist xs)
    | .vstr s => pure (Val.vlist (s.data.map (fun c => Val.vstr (String.mk [c]))))
    | .vdict d => pure (Val.vlist (d.map (fun kv => Val.vstr kv.1)))
    | _ => Except.error "TypeError: not iterable"
  let spec : Dict := [("ports", specPortsVal), ("selector", podLabels)]
  let spec := if !valEqStr portType "ClusterIP" then
      dsetdefault spec "type" portType
    else spec
  let spec := if truthy clusterIp then
      dsetdefault spec "clusterIP" clusterIp
    else spec
  let manifest : Dict :=
    [("apiVersion", .vstr "v1"), ("kind", .vstr "Service"),
     ("metadata", .vdict svcMd), ("spec", .vdict spec)]
  return some (manifest, serviceInfo)

/-- The canonical-name search of `_get_service_manifests`: when no
entry carries the bare node name, the first suffixed entry found is
popped and re-inserted under the bare node name. -/
def renameService (nodeName : String) : List String → VTable → VTable
  | [], tbl => tbl
  | sType :: rest, tbl =>
    let key := Val.vstr (nodeName ++ "-" ++ sType)
    match vkeyGet tbl key with
    | none => renameService nodeName rest tbl
    | some entry =>
      let tbl := vkeyRemove tbl key
      if !entry.isEmpty then
        (vkeySetdefaultGet tbl (.vstr nodeName) entry).2
      else
        renameService nodeName rest tbl

/-- `KubernetesAdaptor._get_service_manifests`: group inferred port
specs into service entries, give the primary service the bare node
name, and build one Service manifest per non-empty entry.  Returns the
Service manifests, the reporting entries, and the mutated container. -/
def getServiceManifests (nodeName : String) (container : Dict)
    (resource : Dict) (inputs : Dict) :
    Except String (List Dict × List Dict × Dict) := do
  let (ports, container) ← getServiceInfo container nodeName
  let serviceTypes := ["clusterip", "nodeport", "LoadBalancer", "ExternalIP"]
  let tbl ← ports.foldlM (fun (tbl : VTable) port => do
      let (mdOpt, port) := dpop port "metadata"
      let md := mdOpt.getD (.vdict [])
      let mdD ← asDict md
      let serviceName0 := dgetD mdD "name" .vnone
      let (ptOpt, port) := dpop port "type"
      let portType := ptOpt.getD .vnone
      let (cipOpt, port) := dpop port "clusterIP"
      let clusterIp := cipOpt.getD .vnone
      let serviceName ← if truthy serviceName0 then pure serviceName0
        else do
          let s ← pyLower portType
          pure (Val.vstr (nodeName ++ "-" ++ s))
      if !vkeyHashable serviceName then
        throw "TypeError: unhashable type"
      let (entry, tbl) := vkeySetdefaultGet tbl serviceName []
      let entry := dsetdefault entry "type" portType
      let entry := dsetdefault entry "metadata" md
      let entry := dsetdefault entry "clusterIP" clusterIp
      let entry ← dappendList entry "ports" (.vdict port)
      pure (vkeySet tbl serviceName entry)) ([] : VTable)
  let tbl := if (vkeyGet tbl (.vstr nodeName)).isSome then tbl
    else renameService nodeName serviceTypes tbl
  let (ms, infos) ← tbl.foldlM (fun (acc : List Dict × List Dict) p => do
      match ← buildService p.1 p.2 resource nodeName inputs with
      | none => pure acc
      | some (m, i) => pure (acc.1 ++ [m], acc.2 ++ [i])) ([], [])
  pure (ms, infos, container)

/-- `KubernetesAdaptor._get_volumes`: pod-level volume entries and
container volume mounts for every related node with a recorded claim
and a matching attachment requirement. -/
def getVolumes (volumes : List (String × Val)) (node : Node) :
    Except String (List Val × List Val) := do
  node.relatedNames.foldlM (fun (acc : List Val × List Val) relName => do
    let pvcName := ((volumes.find? (fun p => p.1 == relName)).map (·.2)).getD .vnone
    if truthy pvcName then do
      let volumeSpec := Val.vdict
        [("name", .vstr relName),
         ("persistentVolumeClaim", .vdict [("claimName", pvcName)])]
      let mountList ← node.requirements.foldlM (fun (ml : List Val) req => do
          let reqD ← asDict req
          let volume ← asDict (dgetD reqD "volume" (.vdict []))
          let rel ← asDict (dgetD volume "relationship" (.vdict []))
          let relationship := dgetD rel "type" .vnone
          let relProps ← asDict (dgetD rel "properties" (.vdict []))
          let path := dgetD relProps "location" .vnone
          if truthy path && valEqStr relationship VOLUME_ATTACHMENT then
            if valEqStr (dgetD volume "node" .vnone) relName then
              pure (ml ++ [Val.vdict [("name", .vstr relName), ("mountPath", path)]])
            else pure ml
          else pure ml) []
      if !mountList.isEmpty then
        pure (acc.1 ++ [volumeSpec], acc.2 ++ mountList)
      else
        pure acc
    else
      pure acc) ([], [])

/-- `KubernetesAdaptor._create_persistent_volume`: the PV manifest and
its metadata labels. -/
def createPersistentVolume (shortId name : String) (inputs : Dict)
    (size : Val) : Except String (Dict × Val) := do
  let mdD ← asDict (dgetD inputs "metadata" (.vdict []))
  let nameV0 := dgetD mdD "name" (dgetD inputs "name" .vnone)
  let nameV := pyOr nameV0 (.vstr (name ++ "-pv"))
  let (mdVal, inputs) := dsetdefaultGet inputs "metadata" (.vdict [])
  let mdD ← asDict mdVal
  let (lVal, mdD) := dsetdefaultGet mdD "labels" (.vdict [])
  let lD ← asDict lVal
  let mdD := dset mdD "labels" (.vdict (dsetdefault lD "volume" nameV))
  let inputs := dset inputs "metadata" (.vdict mdD)
  let (manifest, inputs) ← getResource shortId nameV inputs "PersistentVolume"
  let manifest := dsetdefault manifest "spec" (.vdict inputs)
  let manMd ← asDict (dgetD manifest "metadata" (.vdict []))
  let labels := dgetD manMd "labels" (.vdict [])
  let specD ← asDict (dgetD manifest "spec" .vnone)
  let (capV, specD) := dsetdefaultGet specD "capacity" (.vdict [])
  let capD ← asDict capV
  let specD := dset specD "capacity" (.vdict (dsetdefault capD "storage" size))
  let (amV, specD) := dsetdefaultGet specD "accessModes" (.vlist [])
  let amL ← match amV with
    | .vlist xs => pure xs
    | _ => Except.error "AttributeError: append"
  let specD := dset specD "accessModes" (.vlist (amL ++ [.vstr "ReadWriteMany"]))
  let specD := dsetdefault specD "persistentVolumeReclaimPolicy" (.vstr "Retain")
  let manifest := dset manifest "spec" (.vdict specD)
  pure (manifest, labels)

/-- `KubernetesAdaptor._create_persistent_volume_claim`: the PVC
manifest and the claim name recorded in the volume binding table. -/
def createPersistentVolumeClaim (shortId name : String) (inputs : Dict)
    (labels : Val) (size : Val) : Except String (Dict × Val) := do
  let mdD ← asDict (dgetD inputs "metadata" (.vdict []))
  let nameV0 := dgetD mdD "name" (dgetD inputs "name" .vnone)
  let nameV := pyOr nameV0 (.vstr (name ++ "-pvc"))
  let (mdVal, inputs) := dsetdefaultGet inputs "metadata" (.vdict [])
  let mdD ← asDict mdVal
  let (lVal, mdD) := dsetdefaultGet mdD "labels" (.vdict [])
  let lD ← asDict lVal
  let mdD := dset mdD "labels" (.vdict (dsetdefault lD "volume" nameV))
  let inputs := dset inputs "metadata" (.vdict mdD)
  let (manifest, inputs) ← getResource shortId nameV inputs "PersistentVolumeClaim"
  let manifest := dsetdefault manifest "spec" (.vdict inputs)
  let specD ← asDict (dgetD manifest "spec" .vnone)
  let (resV, specD) := dsetdefaultGet specD "resources" (.vdict [])
  let resD ← asDict resV
  let (reqV, resD) := dsetdefaultGet resD "requests" (.vdict [])
  let reqD ← asDict reqV
  let resD := dset resD "requests" (.vdict (dsetdefault reqD "storage" size))
  let specD := dset specD "resources" (.vdict resD)
  let (amV, specD) := dsetdefaultGet specD "accessModes" (.vlist [])
  let amL ← match amV with
    | .vlist xs => pure xs
    | _ => Except.error "AttributeError: append"
  let specD := dset specD "accessModes" (.vlist (amL ++ [.vstr "ReadWriteMany"]))
  let (selV, specD) := dsetdefaultGet specD "selector" (.vdict [])
  let selD ← asDict selV
  let specD := dset specD "selector" (.vdict (dsetdefault selD "matchLabels" labels))
  let manifest := dset manifest "spec" (.vdict specD)
  pure (manifest, nameV)

/-- `KubernetesAdaptor._create_manifests`: the manifests contributed by
one workload node (its Service manifests followed by the workload
resource) together with the service reporting entries; an unsupported
kind contributes nothing. -/
def createManifests (shortId : String) (node : Node)
    (interface : List (String × Dict)) (repositories : List Repository)
    (volumes : List (String × Val)) :
    Except String (List Dict × List Dict) := do
  let workloadInputs := ((interface.find? (fun p => p.1 == "create")).map (·.2)).getD []
  let podInputs := ((interface.find? (fun p => p.1 == "configure")).map (·.2)).getD []
  let properties := node.properties
  let (resource, workloadInputs) ← getResource shortId (.vstr node.name) workloadInputs "Deployment"
  let kind := dgetD resource "kind" .vnone
  if !(SUPPORTED_WORKLOADS.any (fun s => valEqStr kind s)) then
    return ([], [])
  let resMd ← asDict (dgetD resource "metadata" (.vdict []))
  let resourceNamespace := dgetD resMd "namespace" .vnone
  let (container, properties, podInputs) ← getContainer node properties repositories podInputs
  let (svcManifests, svcInfos, container) ← getServiceManifests node.name container resource podInputs
  let (vols, volMounts) ← getVolumes volumes node
  let podInputs ← if !vols.isEmpty then dextendList podInputs "volumes" vols
    else pure podInputs
  let _properties ← if !volMounts.isEmpty then dextendList properties "volumeMounts" volMounts
    else pure properties
  let (pmOpt, podInputs) := dpop podInputs "metadata"
  let podMetadata ← asDict (pmOpt.getD (.vdict []))
  let podMetadata := dsetdefault podMetadata "labels" (.vdict [("run", .vstr node.name)])
  let podLabels := dgetD podMetadata "labels" .vnone
  let podMetadata := dsetdefault podMetadata "namespace" resourceNamespace
  let (podData, workloadInputs) := separateData POD_SPEC_FIELDS workloadInputs
  let podInputs := dupdate podInputs podData
  let podMetadata := dfilterTruthy podMetadata
  let podInputs := dfilterTruthy podInputs
  let podSpec := dupdate [("containers", Val.vlist [.vdict container])] podInputs
  let selector : Dict := [("matchLabels", podLabels)]
  let spec :=
    if valEqStr kind "Pod" then
      dupdate [("containers", Val.vlist [.vdict container])] workloadInputs
    else if valEqStr kind "Job" then
      dupdate [("template", Val.vdict [("spec", .vdict podSpec)])] workloadInputs
    else
      dupdate [("selector", Val.vdict selector),
               ("template", Val.vdict [("metadata", .vdict podMetadata),
                                       ("spec", .vdict podSpec)])] workloadInputs
  let resource := dsetdefault resource "spec" (.vdict spec)
  pure (svcManifests ++ [resource], svcInfos)

/-- The interface mapping built at the top of `translate`: operation
name to inputs, for every operation under the Kubernetes interface
namespace. -/
def buildInterface (ops : List Operation) : List (String × Dict) :=
  (ops.filter (fun op => strIn KUBERNETES_INTERFACE op.itype)).foldl
    (fun acc op =>
      match acc.find? (fun p => p.1 == op.opName) with
      | some _ => acc.map (fun p => if p.1 == op.opName then (p.1, op.inputs) else p)
      | none => acc ++ [(op.opName, op.inputs)]) []

/-- A node the driver treats as a workload: Docker container type with
at least one Kubernetes-interface operation. -/
def isWorkloadNode (node : Node) : Bool :=
  strIn DOCKER_CONTAINER node.ntype && !(buildInterface node.interfaces).isEmpty

/-- A node the driver treats as a volume: container volume type with at
least one Kubernetes-interface operation. -/
def isVolumeNode (node : Node) : Bool :=
  !(strIn DOCKER_CONTAINER node.ntype && !(buildInterface node.interfaces).isEmpty)
  && strIn CONTAINER_VOLUME node.ntype && !(buildInterface node.interfaces).isEmpty

/-- Accumulated state of one translation run: the manifest collection,
the service reporting entries, and the volume binding table. -/
structure TransState where
  manifests : List Dict
  services : List Dict
  volumes : List (String × Val)

/-- One iteration of the `translate` loop over the sorted node list. -/
def translateNode (shortId : String) (repositories : List Repository)
    (st : TransState) (node : Node) : Except String TransState := do
  let interface := buildInterface node.interfaces
  if strIn DOCKER_CONTAINER node.ntype && !interface.isEmpty then
    if strHasChar node.name '_' then
      throw ("ERROR: Use of underscores in " ++ node.name ++
        " workload name prohibited")
    else do
      let (ms, infos) ← createManifests shortId node interface repositories st.volumes
      pure { st with manifests := st.manifests ++ ms,
                     services := st.services ++ infos }
  else if strIn CONTAINER_VOLUME node.ntype && !interface.isEmpty then do
    let nameV := pyOr (dgetD node.properties "name" .vnone) (.vstr node.name)
    let name ← match nameV with
      | .vstr s => pure s
      | _ => Except.error "TypeError: argument of type is not iterable"
    if strHasChar name '_' then
      throw ("ERROR: Use of underscores in " ++ name ++
        " volume name prohibited")
    else do
      let size := pyOr (dgetD node.properties "size" .vnone) (.vstr "1Gi")
      let pvInputs := ((interface.find? (fun p => p.1 == "create")).map (·.2)).getD []
      let (pvManifest, labels) ← createPersistentVolume shortId name pvInputs size
      let pvcInputs := ((interface.find? (fun p => p.1 == "configure")).map (·.2)).getD []
      let (pvcManifest, pvcName) ← createPersistentVolumeClaim shortId name pvcInputs labels size
      let volumes := if st.volumes.any (fun p => p.1 == node.name) then st.volumes
        else st.volumes ++ [(node.name, pvcName)]
      pure { st with manifests := st.manifests ++ [pvManifest, pvcManifest],
                     volumes := volumes }
  else
    pure st

/-- Stable insertion of a node into a list sorted by descending type
identifier (the relative order of equal keys is preserved). -/
def insertDesc (x : Node) : List Node → List Node
  | [] => [x]
  | y :: ys => if strLe y.ntype x.ntype then x :: y :: ys else y :: insertDesc x ys

/-- Python `sorted(nodes, key=lambda x: x.type, reverse=True)`: a
stable descending sort by type identifier. -/
def pySortNodes (nodes : List Node) : List Node := nodes.foldr insertDesc []

/-- `KubernetesAdaptor.translate`: the ordered manifest collection of
one translation run (file writing and status bookkeeping are outside
the core). -/
def translate (shortId : String) (nodes : List Node)
    (repositories : List Repository) : Except String (List Dict) := do
  let st ← (pySortNodes nodes).foldlM (translateNode shortId repositories)
    ⟨[], [], []⟩
  pure st.manifests

/-! Statement helpers. -/

/-- Nested lookup along a key path (through dict values). -/
def getPath (d : Dict) : List String → Option Val
  | [] => some (.vdict d)
  | [k] => dget d k
  | k :: ks =>
    match dget d k with
    | some (.vdict d') => getPath d' ks
    | _ => none

/-- Number of manifests of a given kind in a collection. -/
def countKind (ms : List Dict) (k : String) : Nat :=
  (ms.filter (fun m => valEqStr (dgetD m "kind" .vnone) k)).length

/-- The name resolved for a volume node by the driver
(`get_property_value("name") or node.name`), when it is a string. -/
def resolvedVolumeName (node : Node) : Option String :=
  match pyOr (dgetD node.properties "name" .vnone) (.vstr node.name) with
  | .vstr s => some s
  | _ => none

/-- The labels mapping `_get_resource` starts from: the labels of a
supplied metadata mapping when that key exists, else the top-level
labels input, else the empty mapping. -/
def effectiveLabels (inputs : Dict) : Val :=
  match dget inputs "metadata" with
  | some (.vdict m) => (dget m "labels").getD (dgetD inputs "labels" (.vdict []))
  | some _ => dgetD inputs "labels" (.vdict [])
  | none => dgetD inputs "labels" (.vdict [])

/-! Association-list lemmas used by the universal claims. -/

theorem dget_append (d e : Dict) (k : String) :
    dget (d ++ e) k = match dget d k with | some v => some v | none => dget e k := by
  induction d with
  | nil => simp [dget]
  | cons hd tl ih =>
    simp only [dget, List.cons_append]
    split <;> simp [ih]

theorem dget_dsetdefault_ne (d : Dict) (k k' : String) (v : Val) (h : k' ≠ k) :
    dget (dsetdefault d k' v) k = dget d k := by
  unfold dsetdefault
  split
  · rfl
  · rw [dget_append]
    have h1 : dget [(k', v)] k = none := by simp [dget, h]
    cases hd : dget d k <;> simp [hd, h1]

theorem dget_dsetdefault_self (d : Dict) (k : String) (v : Val) :
    dget (dsetdefault d k v) k = some ((dget d k).getD v) := by
  unfold dsetdefault dhas
  cases hd : dget d k with
  | some w => simp [hd]
  | none =>
    rw [if_neg (by simp [hd]), dget_append, hd]
    simp [dget]

theorem dget_dremove_ne (d : Dict) (k k' : String) (h : k' ≠ k) :
    dget (dremove d k') k = dget d k := by
  induction d with
  | nil => rfl
  | cons hd tl ih =>
    obtain ⟨a, b⟩ := hd
    by_cases ha : a = k'
    · subst ha
      have hak : (a == k) = false := by simp [h]
      simp [dremove, List.filter, dget, hak] at *
      exact ih
    · have : (a != k') = true := by simp [ha]
      simp only [dremove, List.filter, this] at *
      simp only [dget]
      split <;> simp_all

theorem dget_dset_ne (d : Dict) (k k' : String) (v : Val) (h : k' ≠ k) :
    dget (dset d k' v) k = dget d k := by
  induction d with
  | nil => simp [dset, dget, h]
  | cons hd tl ih =>
    obtain ⟨a, b⟩ := hd
    by_cases ha : a = k'
    · subst ha
      simp [dset, dget, h, ih]
    · have : (a == k') = false := by simp [ha]
      simp only [dset, this, cond_false, if_neg ha]
      simp only [dget]
      split <;> simp_all

theorem dget_dset_self (d : Dict) (k : String) (v : Val) :
    dget (dset d k v) k = some v := by
  induction d with
  | nil => simp [dset, dget]
  | cons hd tl ih =>
    obtain ⟨a, b⟩ := hd
    by_cases ha : a = k
    · subst ha
      simp [dset, dget]
    · have h1 : (a == k) = false := by simp [ha]
      simp [dset, dget, h1, ih]

theorem dget_dsetdefaultGet_snd_ne (d : Dict) (k k' : String) (v : Val) (h : k' ≠ k) :
    dget (dsetdefaultGet d k' v).2 k = dget d k := by
  unfold dsetdefaultGet
  cases hd : dget d k' with
  | some w => rfl
  | none =>
    simp only
    rw [dget_append]
    have h1 : dget [(k', v)] k = none := by simp [dget, h]
    cases he : dget d k <;> simp [he, h1]

theorem dget_dfilterTruthy_of_truthy (d : Dict) (k : String) (v : Val)
    (hv : truthy v = true) (hd : dget d k = some v) :
    dget (dfilterTruthy d) k = some v := by
  induction d with
  | nil => simp [dget] at hd
  | cons hd' tl ih =>
    obtain ⟨a, b⟩ := hd'
    by_cases ha : a = k
    · subst ha
      have hb : b = v := by simpa [dget] using hd
      subst hb
      simp [dfilterTruthy, List.filter, hv, dget]
    · have hak : (a == k) = false := by simp [ha]
      simp only [dget, hak, Bool.false_eq_true, if_false] at hd
      simp only [dfilterTruthy, List.filter] at *
      cases htb : truthy b <;> simp only [htb]
      · exact ih hd
      · simp only [dget, hak, Bool.false_eq_true, if_false]
        exact ih hd

theorem exc_bind_ok {α β : Type} (a : α) (f : α → Except String β) :
    (Except.ok a >>= f) = f a := rfl

theorem exc_bind_err {α β : Type} (e : String) (f : α → Except String β) :
    ((Except.error e : Except String α) >>= f) = .error e := rfl

theorem exc_pure_eq {α : Type} (a : α) :
    (pure a : Except String α) = .ok a := rfl

theorem exc_bind_eq_ok {α β : Type} {ma : Except String α}
    {f : α → Except String β} {b : β} (h : ma >>= f = .ok b) :
    ∃ a, ma = .ok a ∧ f a = .ok b := by
  cases ma with
  | error e => simp [exc_bind_err] at h
  | ok a => exact ⟨a, rfl, h⟩

theorem exc_pure_eq_ok {α : Type} {a b : α}
    (h : (pure a : Except String α) = .ok b) : a = b :=
  Except.ok.inj h

theorem exc_throw_eq_err {α : Type} (e : String) :
    (throw e : Except String α) = .error e := rfl

/-! Concrete topologies used by the scenario claims. -/

/-- A repository list entry for Docker Hub. -/
def hubRepo : Repository := { name := "dockerhub", reposit := "https://hub.docker.com/" }

/-- A bare create operation under the Kubernetes interface. -/
def createOp : Operation := { itype := "Kubernetes", opName := "create", inputs := [] }

/-- A node template artifact section whose image resolves to `nginx`. -/
def nginxArtifacts : Dict :=
  [("artifacts", .vdict [("image", .vdict
    [("file", .vstr "nginx"), ("repository", .vstr "dockerhub")])])]

/-- The `web` container node of the round-trip scenario. -/
def c1Web : Node :=
  { name := "web", ntype := DOCKER_CONTAINER
    properties := [("ports", .vlist
      [.vdict [("port", .vint 8080), ("targetPort", .vint 80)]])]
    interfaces := [createOp], requirements := [], relatedNames := []
    entityTpl := nginxArtifacts }

/-- The Service manifest produced for the round-trip scenario. -/
def c1Service : Dict :=
  [("apiVersion", .vstr "v1"), ("kind", .vstr "Service"),
   ("metadata", .vdict [("name", .vstr "web"),
     ("labels", .vdict [("app", .vstr "app")])]),
   ("spec", .vdict
     [("ports", .vlist [.vdict
        [("name", .vstr "80-tcp"), ("targetPort", .vint 80),
         ("port", .vint 8080), ("protocol", .vstr "TCP")]]),
      ("selector", .vdict [("run", .vstr "web")])])]

/-- The Deployment manifest produced for the round-trip scenario. -/
def c1Deployment : Dict :=
  [("apiVersion", .vstr "apps/v1"), ("kind", .vstr "Deployment"),
   ("metadata", .vdict [("name", .vstr "web"),
     ("labels", .vdict [("app", .vstr "app")])]),
   ("spec", .vdict
     [("selector", .vdict [("matchLabels", .vdict [("run", .vstr "web")])]),
      ("template", .vdict
        [("metadata", .vdict [("labels", .vdict [("run", .vstr "web")])]),
         ("spec", .vdict [("containers", .vlist
           [.vdict [("image", .vstr "nginx"), ("name", .vstr "web")]])])])])]

/-- C1: for a container node named `web` with an image artifact
resolving to `nginx`, one raw port entry with port 8080 and targetPort
80 and the default create kind, translation produces exactly one
Deployment manifest with apiVersion `apps/v1` whose selector
matchLabels and template metadata labels equal the mapping run: web,
and exactly one Service manifest named `web` with the type key omitted
(the ClusterIP orchestrator default) and one port entry with
targetPort 80, port 8080 and protocol TCP (the entry additionally
carries the defaulted port name `80-tcp`). -/
theorem C1_round_trip :
    translate "app" [c1Web] [hubRepo] = .ok [c1Service, c1Deployment]
    ∧ countKind [c1Service, c1Deployment] "Deployment" = 1
    ∧ countKind [c1Service, c1Deployment] "Service" = 1
    ∧ dget c1Deployment "apiVersion" = some (.vstr "apps/v1")
    ∧ getPath c1Deployment ["spec", "selector", "matchLabels"]
        = some (.vdict [("run", .vstr "web")])
    ∧ getPath c1Deployment ["spec", "template", "metadata", "labels"]
        = some (.vdict [("run", .vstr "web")])
    ∧ getPath c1Service ["metadata", "name"] = some (.vstr "web")
    ∧ getPath c1Service ["spec", "type"] = none
    ∧ getPath c1Service ["spec", "ports"] = some (.vlist [.vdict
        [("name", .vstr "80-tcp"), ("targetPort", .vint 80),
         ("port", .vint 8080), ("protocol", .vstr "TCP")]]) :=
  ⟨rfl, rfl, rfl, rfl, rfl, rfl, rfl, rfl, rfl⟩

/-- The port spec emitted for a clusterIP outside the accepted range. -/
def c2SpecBad : Dict :=
  [("name", .vstr "80-tcp"), ("targetPort", .vint 80), ("port", .vint 8080),
   ("protocol", .vstr "TCP"), ("type", .vstr "ClusterIP"),
   ("clusterIP", .vstr "172.16.0.5")]

/-- The port spec emitted for a clusterIP inside the accepted range. -/
def c2SpecGood : Dict :=
  [("name", .vstr "80-tcp"), ("targetPort", .vint 80), ("port", .vint 8080),
   ("protocol", .vstr "TCP"), ("type", .vstr "ClusterIP"),
   ("clusterIP", .vstr "10.100.5.5")]

/-- C2: the claim says a clusterIP that is neither "None" nor within
10.96-10.111 is dropped from the emitted port spec.  The code only
logs the warning and keeps the value: for 172.16.0.5 the emitted port
spec retains the clusterIP verbatim (from where it also propagates
into the Service manifest).  The in-range 10.100.5.5 is retained as
the claim states. -/
theorem C2_clusterip_out_of_range_retained :
    buildPortSpec [("port", .vint 8080), ("targetPort", .vint 80),
      ("clusterIP", .vstr "172.16.0.5")] "web" = .ok (some c2SpecBad)
    ∧ dget c2SpecBad "clusterIP" = some (.vstr "172.16.0.5")
    ∧ buildPortSpec [("port", .vint 8080), ("targetPort", .vint 80),
      ("clusterIP", .vstr "10.100.5.5")] "web" = .ok (some c2SpecGood)
    ∧ dget c2SpecGood "clusterIP" = some (.vstr "10.100.5.5") :=
  ⟨rfl, rfl, rfl, rfl⟩

/-- The port spec emitted for an out-of-range nodePort. -/
def c3Spec : Dict :=
  [("name", .vstr "80-tcp"), ("targetPort", .vint 80), ("port", .vint 8080),
   ("protocol", .vstr "TCP"), ("type", .vstr "NodePort"),
   ("nodePort", .vint 40000)]

/-- C3: the claim says a nodePort outside 30000-32767 is dropped from
the emitted port spec.  The literal guard of the source requires the
value to be both below 30000 and above 32767 at once, which no integer
satisfies, so the nodePort is never dropped: at 40000 the emitted port
spec retains it. -/
theorem C3_nodeport_out_of_range_retained :
    buildPortSpec [("port", .vint 8080), ("targetPort", .vint 80),
      ("nodePort", .vint 40000)] "web" = .ok (some c3Spec)
    ∧ dget c3Spec "nodePort" = some (.vint 40000)
    ∧ (∀ n : Int, ¬(30000 > n ∧ n > 32767)) :=
  ⟨rfl, rfl, fun _ h => by omega⟩

/-- A workload node with an ordinary environment mapping. -/
def c4EnvNode : Node :=
  { name := "web", ntype := DOCKER_CONTAINER
    properties := [("environment", .vdict [("PORT", .vstr "80")])]
    interfaces := [createOp], requirements := [], relatedNames := []
    entityTpl := nginxArtifacts }

/-- A workload node whose only environment key has exactly two
characters. -/
def c4PairNode : Node :=
  { name := "web", ntype := DOCKER_CONTAINER
    properties := [("environment", .vdict [("AB", .vstr "ignored")])]
    interfaces := [createOp], requirements := [], relatedNames := []
    entityTpl := nginxArtifacts }

/-- The container spec built for `c4PairNode`. -/
def c4Container : Dict :=
  [("image", .vstr "nginx"), ("name", .vstr "web"),
   ("env", .vlist [.vdict [("name", .vstr "A"), ("value", .vstr "B")]])]

/-- C4: the claim says a non-empty environment mapping yields env
records name/value per pair and construction succeeds.  The source
iterates the mapping itself (yielding keys) and tuple-unpacks each
key, so construction raises for the key PORT; for a two-character key
AB it succeeds but produces the garbage record name A / value B taken
from the characters of the key, not the mapping pair. -/
theorem C4_environment_conversion_crashes :
    getContainer c4EnvNode c4EnvNode.properties [hubRepo] []
      = .error "ValueError: unpack"
    ∧ (getContainer c4PairNode c4PairNode.properties [hubRepo] []).map
        (fun r => r.1) = .ok c4Container
    ∧ dget c4Container "env" = some (.vlist
        [.vdict [("name", .vstr "A"), ("value", .vstr "B")]]) :=
  ⟨rfl, rfl, rfl⟩

/-- C5: the claim says a raw port entry lacking both a publish and a
target value is dropped with a warning and translation continues.  The
source computes `int(port.get("port", port.get("published", target)))`
before the check, and with every key absent that is `int(None)`, which
raises: translation aborts instead of dropping the entry. -/
theorem C5_portless_entry_crashes :
    buildPortSpec [] "web" = .error "TypeError: int argument must not be None"
    ∧ buildPortSpec [("protocol", .vstr "udp")] "web"
        = .error "TypeError: int argument must not be None" :=
  ⟨rfl, rfl⟩

/-- The `web` container node of the volume scenario, attached to the
volume node `data` at `/var/data`. -/
def c8Web : Node :=
  { name := "web", ntype := DOCKER_CONTAINER, properties := []
    interfaces := [createOp]
    requirements := [.vdict [("volume", .vdict
      [("node", .vstr "data"),
       ("relationship", .vdict
         [("type", .vstr "tosca.relationships.AttachesTo"),
          ("properties", .vdict [("location", .vstr "/var/data")])])])]]
    relatedNames := ["data"], entityTpl := nginxArtifacts }

/-- A variant of the `web` node related to `data` but with no
AttachesTo-with-location requirement. -/
def c8WebNoReq : Node :=
  { name := "web", ntype := DOCKER_CONTAINER, properties := []
    interfaces := [createOp], requirements := [], relatedNames := ["data"]
    entityTpl := nginxArtifacts }

/-- The volume node `data` with its size property unset. -/
def c8Data : Node :=
  { name := "data", ntype := CONTAINER_VOLUME, properties := []
    interfaces := [createOp], requirements := [], relatedNames := []
    entityTpl := [] }

/-- The PersistentVolume manifest of the volume scenario. -/
def c8PV : Dict :=
  [("apiVersion", .vstr "v1"), ("kind", .vstr "PersistentVolume"),
   ("metadata", .vdict
     [("labels", .vdict [("volume", .vstr "data-pv"), ("app", .vstr "app")]),
      ("name", .vstr "data-pv")]),
   ("spec", .vdict
     [("capacity", .vdict [("storage", .vstr "1Gi")]),
      ("accessModes", .vlist [.vstr "ReadWriteMany"]),
      ("persistentVolumeReclaimPolicy", .vstr "Retain")])]

/-- The PersistentVolumeClaim manifest of the volume scenario. -/
def c8PVC : Dict :=
  [("apiVersion", .vstr "v1"), ("kind", .vstr "PersistentVolumeClaim"),
   ("metadata", .vdict
     [("labels", .vdict [("volume", .vstr "data-pvc"), ("app", .vstr "app")]),
      ("name", .vstr "data-pvc")]),
   ("spec", .vdict
     [("resources", .vdict [("requests", .vdict [("storage", .vstr "1Gi")])]),
      ("accessModes", .vlist [.vstr "ReadWriteMany"]),
      ("selector", .vdict [("matchLabels", .vdict
        [("volume", .vstr "data-pv"), ("app", .vstr "app")])])])]

/-- The container spec inside the volume-scenario Deployment. -/
def c8Container : Dict := [("image", .vstr "nginx"), ("name", .vstr "web")]

/-- The Deployment manifest of the volume scenario. -/
def c8Deployment : Dict :=
  [("apiVersion", .vstr "apps/v1"), ("kind", .vstr "Deployment"),
   ("metadata", .vdict [("name", .vstr "web"),
     ("labels", .vdict [("app", .vstr "app")])]),
   ("spec", .vdict
     [("selector", .vdict [("matchLabels", .vdict [("run", .vstr "web")])]),
      ("template", .vdict
        [("metadata", .vdict [("labels", .vdict [("run", .vstr "web")])]),
         ("spec", .vdict
           [("containers", .vlist [.vdict c8Container]),
            ("volumes", .vlist [.vdict
              [("name", .vstr "data"),
               ("persistentVolumeClaim", .vdict
                 [("claimName", .vstr "data-pvc")])]])])])])]

/-- The Deployment manifest of the unattached variant. -/
def c8DeploymentNoVol : Dict :=
  [("apiVersion", .vstr "apps/v1"), ("kind", .vstr "Deployment"),
   ("metadata", .vdict [("name", .vstr "web"),
     ("labels", .vdict [("app", .vstr "app")])]),
   ("spec", .vdict
     [("selector", .vdict [("matchLabels", .vdict [("run", .vstr "web")])]),
      ("template", .vdict
        [("metadata", .vdict [("labels", .vdict [("run", .vstr "web")])]),
         ("spec", .vdict
           [("containers", .vlist [.vdict c8Container])])])])]

/-- C8: for a volume node `data` with size unset and a container node
attached via AttachesTo with location `/var/data`, the PV/PVC pair use
the default 1Gi and ReadWriteMany and the workload manifest carries
the pod-level volume entry referencing the claim - all as the claim
says - but the container spec carries no volumeMount: the source
appends the mounts to the `properties` dict only after the container
spec has already been copied out of it, so the write is dead and the
mount at `/var/data` never reaches the manifest.  The unattached
variant contributes no volume entry, as the claim says. -/
theorem C8_volume_scenario_no_mount :
    translate "app" [c8Web, c8Data] [hubRepo] = .ok [c8PV, c8PVC, c8Deployment]
    ∧ getPath c8PV ["metadata", "name"] = some (.vstr "data-pv")
    ∧ getPath c8PV ["spec", "capacity", "storage"] = some (.vstr "1Gi")
    ∧ getPath c8PV ["spec", "accessModes"] = some (.vlist [.vstr "ReadWriteMany"])
    ∧ getPath c8PVC ["metadata", "name"] = some (.vstr "data-pvc")
    ∧ getPath c8PVC ["spec", "resources", "requests", "storage"] = some (.vstr "1Gi")
    ∧ getPath c8PVC ["spec", "accessModes"] = some (.vlist [.vstr "ReadWriteMany"])
    ∧ getPath c8Deployment ["spec", "template", "spec", "volumes"]
        = some (.vlist [.vdict
            [("name", .vstr "data"),
             ("persistentVolumeClaim", .vdict [("claimName", .vstr "data-pvc")])]])
    ∧ getPath c8Deployment ["spec", "template", "spec", "containers"]
        = some (.vlist [.vdict c8Container])
    ∧ dget c8Container "volumeMounts" = none
    ∧ translate "app" [c8WebNoReq, c8Data] [hubRepo]
        = .ok [c8PV, c8PVC, c8DeploymentNoVol]
    ∧ getPath c8DeploymentNoVol ["spec", "template", "spec", "volumes"] = none :=
  ⟨rfl, rfl, rfl, rfl, rfl, rfl, rfl, rfl, rfl, rfl, rfl, rfl⟩

/-- A workload node whose own properties bind `image` to the empty
string while its artifact image resolves. -/
def c7Node : Node :=
  { name := "web", ntype := DOCKER_CONTAINER
    properties := [("image", .vstr "")]
    interfaces := [createOp], requirements := [], relatedNames := []
    entityTpl := nginxArtifacts }

/-- C7 counterexample: a node binding its `image` property to the
empty string, while the artifact image resolves to `nginx`, yields a
successfully constructed container spec with no image field at all:
the setdefault keeps the falsy property value and the truthiness
filter then drops the key. -/
theorem C7_image_invariant_counterexample :
    (getContainer c7Node c7Node.properties [hubRepo] []).map (fun r => r.1)
      = .ok [("name", Val.vstr "web")]
    ∧ dget [("name", Val.vstr "web")] "image" = none :=
  ⟨rfl, rfl⟩


/-- C7 amended: a workload node whose artifact image does not resolve
makes container construction raise the missing-image error naming the
node; conversely, a successfully constructed container spec carries a
non-empty (truthy) image field whenever the node does not itself bind
an `image` property to a falsy value - the counterexample shows that
such a falsy property value slips past the setdefault and is then
dropped by the truthiness filter, so the unconditional claim fails. -/
theorem C7_image_invariant_amended (node : Node) (properties inputs : Dict)
    (repos : List Repository) :
    (getImage node.entityTpl repos = .ok (.vstr "") →
      getContainer node properties repos inputs
        = .error ("No image specified for " ++ node.name ++ "!"))
    ∧ (∀ c p i, getContainer node properties repos inputs = .ok (c, p, i) →
        (dget properties "image" = none ∨
          (∃ w, dget properties "image" = some w ∧ truthy w = true)) →
        ∃ v, dget c "image" = some v ∧ truthy v = true) := by
  constructor
  · intro hI
    unfold getContainer
    rw [hI]
    rfl
  ·
    intro c p i h himg
    unfold getContainer at h
    obtain ⟨image, hI, h⟩ := exc_bind_eq_ok h
    try dsimp only [] at h
    split at h
    case isTrue hcond =>
      obtain ⟨y, hy, -⟩ := exc_bind_eq_ok h
      rw [exc_throw_eq_err] at hy
      exact absurd hy (by simp)
    case isFalse hcond =>
    have ht : truthy image = true := by simpa using hcond
    obtain ⟨u0, hu0, h⟩ := exc_bind_eq_ok h
    try dsimp only [] at h
    obtain ⟨cmdToks, hS1, h⟩ := exc_bind_eq_ok h
    try dsimp only [] at h
    obtain ⟨argToks, hS2, h⟩ := exc_bind_eq_ok h
    try dsimp only [] at h
    obtain ⟨env, hE, h⟩ := exc_bind_eq_ok h
    try dsimp only [] at h
    split at h
    case isTrue hlbl =>
      obtain ⟨lblD, hLD, h⟩ := exc_bind_eq_ok h
      try dsimp only [] at h
      obtain ⟨mdD, hMD, h⟩ := exc_bind_eq_ok h
      try dsimp only [] at h
      obtain ⟨lD, hLD2, h⟩ := exc_bind_eq_ok h
      try dsimp only [] at h
      obtain ⟨y, hy, h⟩ := exc_bind_eq_ok h
      have hy2 := exc_pure_eq_ok hy
      subst hy2
      try dsimp only [] at h
      split at h
      case isTrue hpriv =>
        obtain ⟨scD, hSC, h⟩ := exc_bind_eq_ok h
        try dsimp only [] at h
        obtain ⟨y2, hy2, h⟩ := exc_bind_eq_ok h
        have hy3 := exc_pure_eq_ok hy2
        subst hy3
        try dsimp only [] at h
        have h4 := exc_pure_eq_ok h
        injection h4 with h1 h5
        injection h5 with h2 h3
        subst h1
        rcases himg with hnone | ⟨w, hw, hwt⟩
        · refine ⟨image, ?_, ht⟩
          apply dget_dfilterTruthy_of_truthy _ _ _ ht
          simp [dpop, dget_dremove_ne, dget_dsetdefault_ne, dget_dset_ne,
            dget_dsetdefaultGet_snd_ne, dget_dsetdefault_self, hnone]
        · refine ⟨w, ?_, hwt⟩
          apply dget_dfilterTruthy_of_truthy _ _ _ hwt
          simp [dpop, dget_dremove_ne, dget_dsetdefault_ne, dget_dset_ne,
            dget_dsetdefaultGet_snd_ne, dget_dsetdefault_self, hw]
      case isFalse hpriv =>
        obtain ⟨y2, hy2, h⟩ := exc_bind_eq_ok h
        have hy3 := exc_pure_eq_ok hy2
        subst hy3
        try dsimp only [] at h
        have h4 := exc_pure_eq_ok h
        injection h4 with h1 h5
        injection h5 with h2 h3
        subst h1
        rcases himg with hnone | ⟨w, hw, hwt⟩
        · refine ⟨image, ?_, ht⟩
          apply dget_dfilterTruthy_of_truthy _ _ _ ht
          simp [dpop, dget_dremove_ne, dget_dsetdefault_ne, dget_dset_ne,
            dget_dsetdefaultGet_snd_ne, dget_dsetdefault_self, hnone]
        · refine ⟨w, ?_, hwt⟩
          apply dget_dfilterTruthy_of_truthy _ _ _ hwt
          simp [dpop, dget_dremove_ne, dget_dsetdefault_ne, dget_dset_ne,
            dget_dsetdefaultGet_snd_ne, dget_dsetdefault_self, hw]
    case isFalse hlbl =>
      obtain ⟨y, hy, h⟩ := exc_bind_eq_ok h
      have hy2 := exc_pure_eq_ok hy
      subst hy2
      try dsimp only [] at h
      split at h
      case isTrue hpriv =>
        obtain ⟨scD, hSC, h⟩ := exc_bind_eq_ok h
        try dsimp only [] at h
        obtain ⟨y2, hy2, h⟩ := exc_bind_eq_ok h
        have hy3 := exc_pure_eq_ok hy2
        subst hy3
        try dsimp only [] at h
        have h4 := exc_pure_eq_ok h
        injection h4 with h1 h5
        injection h5 with h2 h3
        subst h1
        rcases himg with hnone | ⟨w, hw, hwt⟩
        · refine ⟨image, ?_, ht⟩
          apply dget_dfilterTruthy_of_truthy _ _ _ ht
          simp [dpop, dget_dremove_ne, dget_dsetdefault_ne, dget_dset_ne,
            dget_dsetdefaultGet_snd_ne, dget_dsetdefault_self, hnone]
        · refine ⟨w, ?_, hwt⟩
          apply dget_dfilterTruthy_of_truthy _ _ _ hwt
          simp [dpop, dget_dremove_ne, dget_dsetdefault_ne, dget_dset_ne,
            dget_dsetdefaultGet_snd_ne, dget_dsetdefault_self, hw]
      case isFalse hpriv =>
        obtain ⟨y2, hy2, h⟩ := exc_bind_eq_ok h
        have hy3 := exc_pure_eq_ok hy2
        subst hy3
        try dsimp only [] at h
        have h4 := exc_pure_eq_ok h
        injection h4 with h1 h5
        injection h5 with h2 h3
        subst h1
        rcases himg with hnone | ⟨w, hw, hwt⟩
        · refine ⟨image, ?_, ht⟩
          apply dget_dfilterTruthy_of_truthy _ _ _ ht
          simp [dpop, dget_dremove_ne, dget_dsetdefault_ne, dget_dset_ne,
            dget_dsetdefaultGet_snd_ne, dget_dsetdefault_self, hnone]
        · refine ⟨w, ?_, hwt⟩
          apply dget_dfilterTruthy_of_truthy _ _ _ hwt
          simp [dpop, dget_dremove_ne, dget_dsetdefault_ne, dget_dset_ne,
            dget_dsetdefaultGet_snd_ne, dget_dsetdefault_self, hw]


/-- A workload node with no artifacts, so no image resolves. -/
def c7NoImageNode : Node :=
  { name := "web", ntype := DOCKER_CONTAINER, properties := []
    interfaces := [createOp], requirements := [], relatedNames := []
    entityTpl := [] }

/-- The container spec built for `c1Web` by `_get_container`. -/
def c7WitContainer : Dict :=
  [("ports", .vlist [.vdict [("port", .vint 8080), ("targetPort", .vint 80)]]),
   ("image", .vstr "nginx"), ("name", .vstr "web")]

/-- The mutated properties left behind for `c1Web`. -/
def c7WitProps : Dict :=
  [("ports", .vlist [.vdict [("port", .vint 8080), ("targetPort", .vint 80)]]),
   ("image", .vstr "nginx"), ("name", .vstr "web"),
   ("command", .vlist []), ("args", .vlist []), ("env", .vlist []),
   ("stdin", .vnone), ("livenessProbe", .vnone)]

/-- Witness for the amended C7: the missing-image error at a node with
no artifacts, and the image-field invariant at the round-trip node. -/
theorem C7_image_invariant_amended_witness :
    getContainer c7NoImageNode [] [hubRepo] []
      = .error "No image specified for web!"
    ∧ (∃ v, dget c7WitContainer "image" = some v ∧ truthy v = true) :=
  ⟨(C7_image_invariant_amended c7NoImageNode [] [] [hubRepo]).1 rfl,
   (C7_image_invariant_amended c1Web c1Web.properties [] [hubRepo]).2
     c7WitContainer c7WitProps [] rfl (Or.inl rfl)⟩

/-- Create inputs whose metadata already carries an app label. -/
def c9Inputs : Dict :=
  [("metadata", .vdict [("labels", .vdict [("app", .vstr "custom")])])]

/-- The resource built from `c9Inputs`. -/
def c9Resource : Dict :=
  [("apiVersion", .vstr "apps/v1"), ("kind", .vstr "Deployment"),
   ("metadata", .vdict
     [("labels", .vdict [("app", .vstr "custom")]),
      ("name", .vstr "web")])]

/-- C6: for every workload or volume node whose resolved name contains
an underscore, the translation step for that node raises the naming
error naming the offending node and contributes no manifest: the check
is the first thing the driver does for the node, before any manifest
assembly. -/
theorem C6_underscore_naming_error (shortId : String)
    (repos : List Repository) (st : TransState) (node : Node) :
    (isWorkloadNode node = true → strHasChar node.name '_' = true →
      translateNode shortId repos st node = .error
        ("ERROR: Use of underscores in " ++ node.name ++
          " workload name prohibited"))
    ∧ (∀ vname, isVolumeNode node = true →
        resolvedVolumeName node = some vname →
        strHasChar vname '_' = true →
        translateNode shortId repos st node = .error
          ("ERROR: Use of underscores in " ++ vname ++
            " volume name prohibited")) := by
  constructor
  · intro hw hu
    unfold isWorkloadNode at hw
    simp [translateNode, hw, hu]
    rfl
  · intro vname hv hn hu
    unfold isVolumeNode at hv
    rw [Bool.and_eq_true, Bool.and_eq_true] at hv
    obtain ⟨⟨hA, hB⟩, hC⟩ := hv
    rw [Bool.not_eq_true'] at hA
    rw [hC, Bool.and_true] at hA
    cases hp : pyOr (dgetD node.properties "name" .vnone) (.vstr node.name) with
    | vstr s =>
      simp only [resolvedVolumeName, hp] at hn
      obtain rfl : s = vname := by simpa using hn
      simp [translateNode, hA, hB, hC, hp, hu]
      rfl
    | vnone => simp [resolvedVolumeName, hp] at hn
    | vbool b => simp [resolvedVolumeName, hp] at hn
    | vint n => simp [resolvedVolumeName, hp] at hn
    | vlist xs => simp [resolvedVolumeName, hp] at hn
    | vdict d => simp [resolvedVolumeName, hp] at hn

/-- A workload node whose name carries an underscore. -/
def c6BadWorkload : Node :=
  { name := "my_app", ntype := DOCKER_CONTAINER, properties := []
    interfaces := [createOp], requirements := [], relatedNames := []
    entityTpl := nginxArtifacts }

/-- A volume node whose resolved name carries an underscore. -/
def c6BadVolume : Node :=
  { name := "my_vol", ntype := CONTAINER_VOLUME, properties := []
    interfaces := [createOp], requirements := [], relatedNames := []
    entityTpl := [] }

/-- Witness for C6 at two concrete nodes. -/
theorem C6_underscore_naming_error_witness :
    translateNode "app" [] ⟨[], [], []⟩ c6BadWorkload = .error
      "ERROR: Use of underscores in my_app workload name prohibited"
    ∧ translateNode "app" [] ⟨[], [], []⟩ c6BadVolume = .error
      "ERROR: Use of underscores in my_vol volume name prohibited" :=
  ⟨(C6_underscore_naming_error "app" [] ⟨[], [], []⟩ c6BadWorkload).1 rfl rfl,
   (C6_underscore_naming_error "app" [] ⟨[], [], []⟩ c6BadVolume).2
     "my_vol" rfl rfl rfl⟩

/-- A create operation whose inputs request the unsupported kind
ReplicaSet. -/
def replicaSetCreateOp : Operation :=
  { itype := "Kubernetes", opName := "create"
    inputs := [("kind", .vstr "ReplicaSet")] }

/-- A cleanly named workload node whose create kind is the unsupported
ReplicaSet. -/
def c10Clean : Node :=
  { name := "web", ntype := DOCKER_CONTAINER, properties := []
    interfaces := [replicaSetCreateOp]
    requirements := [], relatedNames := [], entityTpl := nginxArtifacts }

/-- An underscore-named workload node whose create kind is the
unsupported ReplicaSet. -/
def c10Bad : Node :=
  { name := "my_app", ntype := DOCKER_CONTAINER, properties := []
    interfaces := [replicaSetCreateOp]
    requirements := [], relatedNames := [], entityTpl := nginxArtifacts }

/-- C10: the underscore naming check on the node name runs before the
supported-kind check: a workload node whose name contains an
underscore raises the naming error even when its create-operation kind
is the unsupported ReplicaSet, which (second conjunct, at a cleanly
named node with the same create inputs) would otherwise make the node
be skipped silently with no manifest and no error. -/
theorem C10_underscore_precedes_kind_check (shortId : String)
    (repos : List Repository) (st : TransState) (node : Node) (ci : Dict)
    (hw : isWorkloadNode node = true)
    (hu : strHasChar node.name '_' = true)
    (hk : dget ci "kind" = some (.vstr "ReplicaSet"))
    (hc : (buildInterface node.interfaces).find? (fun p => p.1 == "create")
      = some ("create", ci)) :
    translateNode shortId repos st node = .error
      ("ERROR: Use of underscores in " ++ node.name ++
        " workload name prohibited")
    ∧ translateNode "app" [] ⟨[], [], []⟩ c10Clean = .ok ⟨[], [], []⟩ := by
  constructor
  · unfold isWorkloadNode at hw
    simp [translateNode, hw, hu]
    rfl
  · rfl

/-- Witness for C10 at a concrete underscore-named node declaring the
unsupported ReplicaSet kind. -/
theorem C10_underscore_precedes_kind_check_witness :
    translateNode "app" [] ⟨[], [], []⟩ c10Bad
      = .error "ERROR: Use of underscores in my_app workload name prohibited" :=
  (C10_underscore_precedes_kind_check "app" [] ⟨[], [], []⟩ c10Bad
    [("kind", Val.vstr "ReplicaSet")] rfl rfl rfl rfl).1

/-- C9 counterexample: with application id `app`, operator-supplied
metadata labels already binding `app` to `custom` survive unchanged:
the resource labels do not include the entry app=app, so the labels do
not always include the application id regardless of operator input. -/
theorem C9_app_label_counterexample :
    getResource "app" (.vstr "web") c9Inputs "Deployment" = .ok (c9Resource, [])
    ∧ getPath c9Resource ["metadata", "labels", "app"] = some (.vstr "custom")
    ∧ getPath c9Resource ["metadata", "labels", "app"] ≠ some (.vstr "app") := by
  refine ⟨rfl, rfl, ?_⟩
  intro h
  rw [show getPath c9Resource ["metadata", "labels", "app"]
    = some (.vstr "custom") from rfl] at h
  injection h with h1
  injection h1 with h2
  exact absurd h2 (by decide)

/-- C9 amended: every workload resource that `_get_resource`
successfully builds carries a metadata labels mapping containing an
`app` key; its value is the application id whenever the
operator-supplied labels (the metadata labels when present, else the
top-level labels input) do not already bind `app` - but an
operator-supplied `app` entry is kept rather than overwritten, so the
labels do not always include app=<application id>. -/
theorem C9_app_label_amended (shortId : String) (name : Val)
    (inputs : Dict) (kind : String) (r rest : Dict)
    (h : getResource shortId name inputs kind = .ok (r, rest)) :
    ∃ labels, getPath r ["metadata", "labels"] = some (.vdict labels)
      ∧ (dget labels "app").isSome = true
      ∧ (∀ L, effectiveLabels inputs = .vdict L → dget L "app" = none →
          dget labels "app" = some (.vstr shortId)) := by
  unfold getResource at h
  simp only [dpop] at h
  cases hks : pyStrOnly ((dget inputs "kind").getD (Val.vstr kind)) with
  | error e => simp [hks, exc_bind_err] at h
  | ok kindStr =>
  simp only [hks, exc_bind_ok] at h
  rw [dget_dremove_ne _ "metadata" "apiVersion" (by decide),
      dget_dremove_ne _ "metadata" "kind" (by decide)] at h
  cases hmd : dget inputs "metadata" with
  | none =>
    simp only [hmd, Option.getD_none] at h
    rw [show asDict (Val.vdict []) = .ok [] from rfl] at h
    simp only [exc_bind_ok] at h
    rw [dget_dremove_ne _ "labels" "name" (by decide),
        dget_dremove_ne _ "labels" "metadata" (by decide),
        dget_dremove_ne _ "labels" "apiVersion" (by decide),
        dget_dremove_ne _ "labels" "kind" (by decide)] at h
    cases hlb : dget inputs "labels" with
    | none =>
      simp only [hlb, Option.getD_none] at h
      simp only [show dgetD (dsetdefault (dsetdefault [] "name"
        ((dget (dremove (dremove (dremove inputs "kind") "apiVersion")
          "metadata") "name").getD name)) "labels" (Val.vdict []))
        "labels" (Val.vdict []) = Val.vdict [] from rfl] at h
      rw [show asDict (Val.vdict []) = .ok [] from rfl] at h
      simp only [exc_bind_ok, exc_pure_eq, Except.ok.injEq,
        Prod.mk.injEq] at h
      obtain ⟨hr, -⟩ := h
      subst hr
      refine ⟨dsetdefault [] "app" (.vstr shortId), ?_, ?_, ?_⟩
      · exact dget_dset_self _ _ _
      · rfl
      · intro L hL hnone
        rfl
    | some w =>
      simp only [hlb, Option.getD_some] at h
      cases w with
      | vdict d =>
        simp only [show ∀ nv, dgetD (dsetdefault (dsetdefault [] "name" nv)
          "labels" (Val.vdict d)) "labels" (Val.vdict [])
          = Val.vdict d from fun nv => rfl] at h
        rw [show asDict (Val.vdict d) = .ok d from rfl] at h
        simp only [exc_bind_ok, exc_pure_eq, Except.ok.injEq,
          Prod.mk.injEq] at h
        obtain ⟨hr, -⟩ := h
        subst hr
        refine ⟨dsetdefault d "app" (.vstr shortId), ?_, ?_, ?_⟩
        · exact dget_dset_self _ _ _
        · rw [dget_dsetdefault_self]
          rfl
        · intro L hL hnone
          simp only [effectiveLabels, hmd, hlb, dgetD, Option.getD_some,
            Val.vdict.injEq] at hL
          subst hL
          rw [dget_dsetdefault_self, hnone]
          rfl
      | vnone =>
        simp [show ∀ nv, dgetD (dsetdefault (dsetdefault [] "name" nv)
          "labels" Val.vnone) "labels" (Val.vdict [])
          = Val.vnone from fun nv => rfl, asDict, exc_bind_err] at h
      | vbool b =>
        simp [show ∀ nv, dgetD (dsetdefault (dsetdefault [] "name" nv)
          "labels" (Val.vbool b)) "labels" (Val.vdict [])
          = Val.vbool b from fun nv => rfl, asDict, exc_bind_err] at h
      | vint n =>
        simp [show ∀ nv, dgetD (dsetdefault (dsetdefault [] "name" nv)
          "labels" (Val.vint n)) "labels" (Val.vdict [])
          = Val.vint n from fun nv => rfl, asDict, exc_bind_err] at h
      | vstr s =>
        simp [show ∀ nv, dgetD (dsetdefault (dsetdefault [] "name" nv)
          "labels" (Val.vstr s)) "labels" (Val.vdict [])
          = Val.vstr s from fun nv => rfl, asDict, exc_bind_err] at h
      | vlist xs =>
        simp [show ∀ nv, dgetD (dsetdefault (dsetdefault [] "name" nv)
          "labels" (Val.vlist xs)) "labels" (Val.vdict [])
          = Val.vlist xs from fun nv => rfl, asDict, exc_bind_err] at h
  | some mv =>
    simp only [hmd, Option.getD_some] at h
    cases mv with
    | vdict m =>
      rw [show ∀ d, asDict (Val.vdict d) = .ok d from fun d => rfl] at h
      simp only [exc_bind_ok] at h
      rw [dget_dremove_ne _ "labels" "name" (by decide),
          dget_dremove_ne _ "labels" "metadata" (by decide),
          dget_dremove_ne _ "labels" "apiVersion" (by decide),
          dget_dremove_ne _ "labels" "kind" (by decide)] at h
      simp only [dgetD, dget_dsetdefault_self,
        dget_dsetdefault_ne _ "labels" "name" _ (by decide),
        Option.getD_some] at h
      cases hml : dget m "labels" with
      | none =>
        simp only [hml, Option.getD_none] at h
        cases hlb : dget inputs "labels" with
        | none =>
          simp only [hlb, Option.getD_none] at h
          rw [show asDict (Val.vdict []) = .ok [] from rfl] at h
          simp only [exc_bind_ok, exc_pure_eq, Except.ok.injEq,
            Prod.mk.injEq] at h
          obtain ⟨hr, -⟩ := h
          subst hr
          refine ⟨dsetdefault [] "app" (.vstr shortId), ?_, ?_, ?_⟩
          · exact dget_dset_self _ _ _
          · rfl
          · intro L hL hnone
            rfl
        | some w =>
          simp only [hlb, Option.getD_some] at h
          cases w with
          | vdict d =>
            rw [show asDict (Val.vdict d) = .ok d from rfl] at h
            simp only [exc_bind_ok, exc_pure_eq, Except.ok.injEq,
              Prod.mk.injEq] at h
            obtain ⟨hr, -⟩ := h
            subst hr
            refine ⟨dsetdefault d "app" (.vstr shortId), ?_, ?_, ?_⟩
            · exact dget_dset_self _ _ _
            · rw [dget_dsetdefault_self]
              rfl
            · intro L hL hnone
              simp only [effectiveLabels, hmd, hml, hlb, dgetD,
                Option.getD_none, Option.getD_some, Val.vdict.injEq] at hL
              subst hL
              rw [dget_dsetdefault_self, hnone]
              rfl
          | vnone => simp [asDict, exc_bind_err] at h
          | vbool b => simp [asDict, exc_bind_err] at h
          | vint n => simp [asDict, exc_bind_err] at h
          | vstr s => simp [asDict, exc_bind_err] at h
          | vlist xs => simp [asDict, exc_bind_err] at h
      | some w =>
        simp only [hml, Option.getD_some] at h
        cases w with
        | vdict d =>
          rw [show asDict (Val.vdict d) = .ok d from rfl] at h
          simp only [exc_bind_ok, exc_pure_eq, Except.ok.injEq,
            Prod.mk.injEq] at h
          obtain ⟨hr, -⟩ := h
          subst hr
          refine ⟨dsetdefault d "app" (.vstr shortId), ?_, ?_, ?_⟩
          · exact dget_dset_self _ _ _
          · rw [dget_dsetdefault_self]
            rfl
          · intro L hL hnone
            simp only [effectiveLabels, hmd, hml, dgetD,
              Option.getD_some, Val.vdict.injEq] at hL
            subst hL
            rw [dget_dsetdefault_self, hnone]
            rfl
        | vnone => simp [asDict, exc_bind_err] at h
        | vbool b => simp [asDict, exc_bind_err] at h
        | vint n => simp [asDict, exc_bind_err] at h
        | vstr s => simp [asDict, exc_bind_err] at h
        | vlist xs => simp [asDict, exc_bind_err] at h
    | vnone => simp [asDict, exc_bind_err] at h
    | vbool b => simp [asDict, exc_bind_err] at h
    | vint n => simp [asDict, exc_bind_err] at h
    | vstr s => simp [asDict, exc_bind_err] at h
    | vlist xs => simp [asDict, exc_bind_err] at h

/-- Create inputs with no app label of their own. -/
def c9PlainInputs : Dict := [("labels", .vdict [("tier", .vstr "web")])]

/-- Witness for the amended C9 at concrete inputs carrying labels
without an `app` entry. -/
theorem C9_app_label_amended_witness :
    ∃ labels,
      getPath [("apiVersion", Val.vstr "apps/v1"),
        ("kind", Val.vstr "Deployment"),
        ("metadata", Val.vdict
          [("name", Val.vstr "web"),
           ("labels", Val.vdict [("tier", Val.vstr "web"),
             ("app", Val.vstr "app")])])] ["metadata", "labels"]
        = some (.vdict labels)
      ∧ (dget labels "app").isSome = true
      ∧ (∀ L, effectiveLabels c9PlainInputs = .vdict L → dget L "app" = none →
          dget labels "app" = some (.vstr "app")) :=
  C9_app_label_amended "app" (.vstr "web") c9PlainInputs "Deployment"
    _ _ rfl

end TKube
